import Mathlib

/-! Daxiang EPG provider adapter.

A shallow embedding of `internal/provider/providers/daxiang/daxiang.go`
(`ParseEPGResponse`, `FetchEPG`, `HealthCheck`) together with the pieces of
the Go standard library the adapter calls (`strconv.Atoi`, `fmt` verbs `%d`
and `%x`, `time.Date(...).Unix()`, `Time.Format("2006-01-02")`,
`sha256.Sum256`), followed by theorems about them.

Go's multiple return `([]*model.Program, error)` is kept as a pair of
options: `none` in the first component is the `nil` slice, `none` in the
second is the `nil` error.
-/

namespace Daxiang

/-! ## Data model -/

/-- Byte strings (`[]byte`), one natural number below 256 per byte. -/
abbrev Bytes := List Nat

/-- Modelled from the spec: the error constructors of `pkg/errors`
(`ProviderParseFailed`, `ProviderAPIError`) are not among the available sources.
An error value is the tagged record of the arguments its constructor received
(spec section 7: parse error, provider-API error carrying code and message);
`other` stands for an error produced outside `pkg/errors` (zone loading,
transport, resolver), identified by its text. -/
inductive GoError where
  | ProviderParseFailed (providerID : String) (cause : String)
  | ProviderAPIError (providerID : String) (code : String) (msg : String)
  | other (text : String)
  deriving DecidableEq, Repr

/-- A loaded `*time.Location`: the offset (seconds east of UTC) of the zone in
force before the first transition, and the transitions `(when, offset)` of the
zone's table in ascending order of `when` (Unix seconds). A zone without
transitions has one fixed offset. -/
structure Location where
  name : String
  offset : Int
  transitions : List (Int × Int)
  deriving DecidableEq, Repr

/-- An instant (`time.Time` as produced by the resolver): Unix seconds and
the zone it is presented in. -/
structure Time where
  unix : Int
  loc : Location
  deriving DecidableEq, Repr

/-- Go's `Time.Before`. -/
def Time.Before (t u : Time) : Prop := t.unix < u.unix

instance (t u : Time) : Decidable (t.Before u) := by
  unfold Time.Before; exact inferInstance

/-- The `date time.Time` argument of `FetchEPG` as the adapter observes it:
through `date.Year()`, `date.Month()`, `date.Day()` (and `Format`, which
reads the same three fields). -/
structure Date where
  Year : Int
  Month : Int
  Day : Int
  deriving DecidableEq, Repr

/-- The fields of `model.Program` the adapter fills in. -/
structure Program where
  ChannelID : String
  Title : String
  StartTime : Time
  EndTime : Time
  OriginalTimezone : String
  ProviderID : String
  deriving DecidableEq, Repr

/-- One element of `ProgramResponse.Programs`. -/
structure RawProgram where
  Title : String
  BeginTime : String
  EndTime : String
  deriving DecidableEq, Repr

/-- The decoded envelope, `ProgramResponse`. -/
structure ProgramResponse where
  Code : Int
  Msg : String
  Success : Bool
  Programs : List RawProgram
  deriving DecidableEq, Repr

/-- The result of `model.ProviderHealth` the adapter fills in. -/
structure ProviderHealth where
  Healthy : Bool
  Message : String
  deriving DecidableEq, Repr

/-- Go's `([]*model.Program, error)`. -/
abbrev FetchResult := Option (List Program) × Option GoError

/-! ## `strconv` and `fmt` -/

/-- Bit size of Go's `int` on the platforms the service is built for. -/
def intSize : Nat := 64

/-- Value of a run of ASCII digits, as accumulated by `n = n*10 + int(ch)`. -/
def digitsValue (ds : List Char) : Nat :=
  ds.foldl (fun n ch => n * 10 + (ch.toNat - 48)) 0

/-- Go's `strconv.Atoi`: an optional sign, then one or more ASCII digits, no
underscores (base 10), and the value has to fit `int`; `none` is the
`*NumError` (syntax or range). -/
def Atoi (s : String) : Option Int :=
  let signed : Bool × List Char :=
    match s.data with
    | '-' :: r => (true, r)
    | '+' :: r => (false, r)
    | r => (false, r)
  let neg := signed.1
  let ds := signed.2
  if ds.isEmpty then none
  else if !ds.all Char.isDigit then none
  else
    let un := digitsValue ds
    if !neg && 2 ^ (intSize - 1) ≤ un then none
    else if neg && 2 ^ (intSize - 1) < un then none
    else some (if neg then -(un : Int) else (un : Int))

/-- The verb `%d` of `fmt` on an integer. -/
def fmtD (n : Int) : String :=
  if n < 0 then "-" ++ Nat.repr n.natAbs else Nat.repr n.natAbs

/-! ## The adapter's environment -/

/-- What the adapter takes from its surroundings: configuration constants of
the `provider` package, the embedded `BaseProvider`, and the external
collaborators (JSON decoding, zone loading, transport). -/
structure Env where
  /-- The adapter id, `p.GetID()`. -/
  GetID : String
  /-- The zone name `provider.UTC8Location`. -/
  UTC8Location : String
  /-- The header value `provider.DefaultUserAgent`. -/
  DefaultUserAgent : String
  /-- Decoding `json.Unmarshal(data, &resp)`; the error carries its text. -/
  Unmarshal : Bytes → Except String ProgramResponse
  /-- Zone loading `time.LoadLocation(name)`; the error carries its text. -/
  LoadLocation : String → Except String Location
  /-- The resolver `p.BaseProvider.ProcessProgramTimeRangeFromTimestamp`. -/
  ProcessProgramTimeRangeFromTimestamp :
    Int → Int → String → Location → Except GoError (Time × Time)
  /-- The transport `p.GetWithHeaders(ctx, path, nil, headers)`. -/
  GetWithHeaders : String → List (String × String) → Except GoError Bytes
  /-- The text of an error, `err.Error()`. -/
  errorText : GoError → String

/-! ## `ParseEPGResponse` -/

/-- The record appended at the end of the loop body. -/
def mkProgram (env : Env) (channelID : String) (programData : RawProgram)
    (startTime endTime : Time) : Program :=
  { ChannelID := channelID
    Title := programData.Title
    StartTime := startTime
    EndTime := endTime
    OriginalTimezone := env.UTC8Location
    ProviderID := env.GetID }

/-- One iteration of `for _, programData := range resp.Programs`: every
`continue` leaves `result` as it is, the last statement appends. -/
def parseStep (env : Env) (channelID date : String) (location : Location)
    (result : List Program) (programData : RawProgram) : List Program :=
  match Atoi programData.BeginTime with
  | none => result
  | some st =>
    match Atoi programData.EndTime with
    | none => result
    | some et =>
      match env.ProcessProgramTimeRangeFromTimestamp st et date location with
      | .error _ => result
      | .ok (startTime, endTime) =>
        result ++ [mkProgram env channelID programData startTime endTime]

/-- The body of `ParseEPGResponse` after a successful decode. -/
def parseEnvelope (env : Env) (resp : ProgramResponse)
    (channelID date : String) : FetchResult :=
  if resp.Code = -2 then
    (none, some (.ProviderAPIError env.GetID (fmtD resp.Code) resp.Msg))
  else if resp.Programs.length = 0 then
    (some [], none)
  else
    match env.LoadLocation env.UTC8Location with
    | .error err => (none, some (.other err))
    | .ok location =>
      (some (resp.Programs.foldl (parseStep env channelID date location) []), none)

/-- `DaxiangProvider.ParseEPGResponse`. -/
def ParseEPGResponse (env : Env) (data : Bytes)
    (providerChannelID channelID date : String) : FetchResult :=
  let _ := providerChannelID
  match env.Unmarshal data with
  | .error err => (none, some (.ProviderParseFailed env.GetID err))
  | .ok resp => parseEnvelope env resp channelID date

/-! ## `time`: `time.Date(...).Unix()` and `Format("2006-01-02")` -/

def secondsPerDay : Int := 86400
def daysPer400Years : Int := 365 * 400 + 97
def daysPer100Years : Int := 365 * 100 + 24
def daysPer4Years : Int := 365 * 4 + 1

/-- The year of Go's absolute epoch. -/
def absoluteZeroYear : Int := -292277022399

/-- Go's `unixToInternal`, seconds from year 1 to 1970. -/
def unixToInternal : Int := (1969 * 365 + 1969 / 4 - 1969 / 100 + 1969 / 400) * secondsPerDay

def internalToUnix : Int := -unixToInternal

/-- Go's `absoluteToInternal`, `(absoluteZeroYear - 1) * 365.2425 * secondsPerDay`. -/
def absoluteToInternal : Int := (absoluteZeroYear - 1) * 31556952

/-- Go's table `daysBefore`: days in a non-leap year before month `m+1`. -/
def daysBefore : List Int :=
  [0, 31, 31 + 28, 31 + 28 + 31, 31 + 28 + 31 + 30, 31 + 28 + 31 + 30 + 31,
   31 + 28 + 31 + 30 + 31 + 30, 31 + 28 + 31 + 30 + 31 + 30 + 31,
   31 + 28 + 31 + 30 + 31 + 30 + 31 + 31, 31 + 28 + 31 + 30 + 31 + 30 + 31 + 31 + 30,
   31 + 28 + 31 + 30 + 31 + 30 + 31 + 31 + 30 + 31,
   31 + 28 + 31 + 30 + 31 + 30 + 31 + 31 + 30 + 31 + 30,
   31 + 28 + 31 + 30 + 31 + 30 + 31 + 31 + 30 + 31 + 30 + 31]

/-- Go's `isLeap`. -/
def isLeap (year : Int) : Bool :=
  year % 4 == 0 && (year % 100 != 0 || year % 400 == 0)

/-- Go's `norm(hi, lo, base)`: bring `lo` into `[0, base)`, carrying into `hi`. -/
def norm (hi lo base : Int) : Int × Int :=
  let r1 : Int × Int :=
    if lo < 0 then
      let n := (-lo - 1) / base + 1
      (hi - n, lo + n * base)
    else (hi, lo)
  if base ≤ r1.2 then
    let n := r1.2 / base
    (r1.1 + n, r1.2 - n * base)
  else r1

/-- Conversion to `uint64`: the value modulo `2 ^ 64`. -/
def wrapUint64 (x : Int) : Int := x % 2 ^ 64

/-- Conversion to `int64`: the value modulo `2 ^ 64`, taken in
`[-2 ^ 63, 2 ^ 63)`. -/
def wrapInt64 (x : Int) : Int := (x + 2 ^ 63) % 2 ^ 64 - 2 ^ 63

/-- Go's `daysSinceEpoch`: days from the absolute epoch to 1 January of
`year`, in `uint64` arithmetic. -/
def daysSinceEpoch (year : Int) : Int :=
  let y := wrapUint64 (year - absoluteZeroYear)
  let n := y / 400
  let y := wrapUint64 (y - 400 * n)
  let d := wrapUint64 (daysPer400Years * n)
  let n := y / 100
  let y := wrapUint64 (y - 100 * n)
  let d := wrapUint64 (d + daysPer100Years * n)
  let n := y / 4
  let y := wrapUint64 (y - 4 * n)
  let d := wrapUint64 (d + daysPer4Years * n)
  let n := y
  wrapUint64 (d + 365 * n)

/-- The answer of Go's `loc.lookup(sec)`: the offset in force and the interval
`[start, endSec)` of Unix seconds on which it is in force. -/
structure ZoneSpan where
  offset : Int
  start : Int
  endSec : Int
  deriving DecidableEq, Repr

/-- Go's `alpha`, the start of time for `lookup`. -/
def alpha : Int := -(2 ^ 63)

/-- Go's `omega`, the end of time for `lookup`. -/
def omega : Int := 2 ^ 63 - 1

/-- The span holding `sec`, scanning the transitions in ascending order: the
span that starts at the last transition not after `sec`. -/
def lookupFrom : List (Int × Int) → Int → Int → Int → ZoneSpan
  | [], offset, start, _ => ⟨offset, start, omega⟩
  | (w, o) :: rest, offset, start, sec =>
    if sec < w then ⟨offset, start, w⟩ else lookupFrom rest o w sec

/-- Go's `loc.lookup(sec)` on the transition table of the zone: the search
for the entry with the largest time not after `sec`; before the first
transition the first zone is in force, after the last one its offset stays in
force (the rule string that may extend a table is not modelled). -/
def Location.lookup (loc : Location) (sec : Int) : ZoneSpan :=
  lookupFrom loc.transitions loc.offset alpha sec

/-- The first half of Go's `time.Date(year, month, day, hour, min, sec, 0, loc)`:
month, nanoseconds, seconds, minutes and hours are normalised, the days before
the year, before the month and before the day are added in `uint64`, and the
seconds are shifted to the Unix epoch in `int64`. The value is the local `unix`
before the zone is looked at: the instant the civil time would be in UTC. -/
def dateCivilSeconds (year month day hour min sec : Int) : Int :=
  let ym := norm year (month - 1) 12
  let year := ym.1
  let month := ym.2 + 1
  let sn := norm sec 0 1000000000
  let ms := norm min sn.1 60
  let hm := norm hour ms.1 60
  let dh := norm day hm.1 24
  let sec := ms.2
  let min := hm.2
  let hour := dh.2
  let day := dh.1
  let d := daysSinceEpoch year
  let d := wrapUint64 (d + daysBefore.getD (month - 1).toNat 0)
  let d := if isLeap year && 3 ≤ month then wrapUint64 (d + 1) else d
  let d := wrapUint64 (d + (day - 1))
  let abs := wrapUint64 (d * secondsPerDay)
  let abs := wrapUint64 (abs + (hour * 3600 + min * 60 + sec))
  wrapInt64 (abs + (absoluteToInternal + internalToUnix))

/-- Go's `time.Date(year, month, day, hour, min, sec, 0, loc).Unix()`: the
second half of `time.Date` looks up the offset the zone has at `unix`, looks
again at `unix - offset` when that instant is outside the span found, and takes
the offset off. -/
def dateUnix (year month day hour min sec : Int) (loc : Location) : Int :=
  let unix := dateCivilSeconds year month day hour min sec
  let span := loc.lookup unix
  if span.offset ≠ 0 then
    let utc := wrapInt64 (unix - span.offset)
    let offset :=
      if utc < span.start ∨ span.endSec ≤ utc then (loc.lookup utc).offset
      else span.offset
    wrapInt64 (unix - offset)
  else unix

/-- Go's `appendInt(b, x, width)`: a sign for negative values, then the
decimal digits padded with zeros to `width`. -/
def appendInt (x : Int) (width : Nat) : String :=
  let ds := String.mk (List.leftpad width '0' (Nat.repr x.natAbs).data)
  if x < 0 then "-" ++ ds else ds

/-- Go's `date.Format("2006-01-02")`. -/
def Date.Format (date : Date) : String :=
  appendInt date.Year 4 ++ "-" ++ appendInt date.Month 2 ++ "-" ++ appendInt date.Day 2

/-! ## `crypto/sha256` and the verb `%x` -/

def mask32 : Nat := 2 ^ 32

/-- Go's `bits.RotateLeft32(x, -k)` on a 32-bit word. -/
def rotr (x k : Nat) : Nat := ((x >>> k) ||| (x <<< (32 - k))) % mask32

/-- The table `_K` of `sha256block.go`. -/
def K256 : List Nat :=
  [ 0x428a2f98, 0x71374491, 0xb5c0fbcf, 0xe9b5dba5,
    0x3956c25b, 0x59f111f1, 0x923f82a4, 0xab1c5ed5,
    0xd807aa98, 0x12835b01, 0x243185be, 0x550c7dc3,
    0x72be5d74, 0x80deb1fe, 0x9bdc06a7, 0xc19bf174,
    0xe49b69c1, 0xefbe4786, 0x0fc19dc6, 0x240ca1cc,
    0x2de92c6f, 0x4a7484aa, 0x5cb0a9dc, 0x76f988da,
    0x983e5152, 0xa831c66d, 0xb00327c8, 0xbf597fc7,
    0xc6e00bf3, 0xd5a79147, 0x06ca6351, 0x14292967,
    0x27b70a85, 0x2e1b2138, 0x4d2c6dfc, 0x53380d13,
    0x650a7354, 0x766a0abb, 0x81c2c92e, 0x92722c85,
    0xa2bfe8a1, 0xa81a664b, 0xc24b8b70, 0xc76c51a3,
    0xd192e819, 0xd6990624, 0xf40e3585, 0x106aa070,
    0x19a4c116, 0x1e376c08, 0x2748774c, 0x34b0bcb5,
    0x391c0cb3, 0x4ed8aa4a, 0x5b9cca4f, 0x682e6ff3,
    0x748f82ee, 0x78a5636f, 0x84c87814, 0x8cc70208,
    0x90befffa, 0xa4506ceb, 0xbef9a3f7, 0xc67178f2 ]

/-- The eight chaining words `h0 .. h7` of a SHA-256 digest state. -/
structure Digest where
  h0 : Nat
  h1 : Nat
  h2 : Nat
  h3 : Nat
  h4 : Nat
  h5 : Nat
  h6 : Nat
  h7 : Nat
  deriving DecidableEq, Repr

/-- The initial state `init0 .. init7`. -/
def Digest.init : Digest :=
  ⟨0x6a09e667, 0xbb67ae85, 0x3c6ef372, 0xa54ff53a,
   0x510e527f, 0x9b05688c, 0x1f83d9ab, 0x5be0cd19⟩

/-- Big-endian word at index `i` of a 64-byte chunk. -/
def chunkWord (p : Bytes) (i : Nat) : Nat :=
  (p.getD (4 * i) 0 <<< 24) ||| (p.getD (4 * i + 1) 0 <<< 16) |||
    (p.getD (4 * i + 2) 0 <<< 8) ||| p.getD (4 * i + 3) 0

/-- One step `w[i] = t1 + w[i-7] + t2 + w[i-16]` of the message schedule,
appended to the words computed so far. -/
def scheduleStep (w : List Nat) (i : Nat) : List Nat :=
  let v1 := w.getD (i - 2) 0
  let t1 := rotr v1 17 ^^^ rotr v1 19 ^^^ (v1 >>> 10)
  let v2 := w.getD (i - 15) 0
  let t2 := rotr v2 7 ^^^ rotr v2 18 ^^^ (v2 >>> 3)
  w ++ [(t1 + w.getD (i - 7) 0 + t2 + w.getD (i - 16) 0) % mask32]

/-- The 64 schedule words of one chunk. -/
def schedule (p : Bytes) : List Nat :=
  (List.range 48).foldl (fun w i => scheduleStep w (i + 16))
    ((List.range 16).map (chunkWord p))

/-- One round of the compression loop. -/
def roundStep (w : List Nat) (s : Digest) (i : Nat) : Digest :=
  let t1 := s.h7 + (rotr s.h4 6 ^^^ rotr s.h4 11 ^^^ rotr s.h4 25) +
    ((s.h4 &&& s.h5) ^^^ ((s.h4 ^^^ (mask32 - 1)) &&& s.h6)) + K256.getD i 0 + w.getD i 0
  let t2 := (rotr s.h0 2 ^^^ rotr s.h0 13 ^^^ rotr s.h0 22) +
    ((s.h0 &&& s.h1) ^^^ (s.h0 &&& s.h2) ^^^ (s.h1 &&& s.h2))
  ⟨(t1 + t2) % mask32, s.h0, s.h1, s.h2, (s.h3 + t1) % mask32, s.h4, s.h5, s.h6⟩

/-- Go's `blockGeneric` on one 64-byte chunk. -/
def block (dig : Digest) (p : Bytes) : Digest :=
  let w := schedule p
  let s := (List.range 64).foldl (roundStep w) dig
  ⟨(dig.h0 + s.h0) % mask32, (dig.h1 + s.h1) % mask32, (dig.h2 + s.h2) % mask32,
   (dig.h3 + s.h3) % mask32, (dig.h4 + s.h4) % mask32, (dig.h5 + s.h5) % mask32,
   (dig.h6 + s.h6) % mask32, (dig.h7 + s.h7) % mask32⟩

/-- Big-endian bytes of a 32-bit word. -/
def be32 (x : Nat) : Bytes :=
  [(x >>> 24) % 256, (x >>> 16) % 256, (x >>> 8) % 256, x % 256]

/-- Big-endian bytes of a 64-bit word. -/
def be64 (x : Nat) : Bytes :=
  be32 ((x >>> 32) % mask32) ++ be32 (x % mask32)

/-- The padding of `checkSum`: a `0x80` byte, zeros up to 56 modulo 64, then
the bit length as a 64-bit big-endian word. -/
def padMessage (data : Bytes) : Bytes :=
  let len := data.length
  let zeros := if len % 64 < 56 then 55 - len % 64 else 64 + 55 - len % 64
  data ++ [0x80] ++ List.replicate zeros 0 ++ be64 ((len <<< 3) % 2 ^ 64)

/-- Fold `block` over the first `n` 64-byte chunks of `p`. -/
def blocks (dig : Digest) (p : Bytes) : Nat → Digest
  | 0 => dig
  | n + 1 => blocks (block dig (p.take 64)) (p.drop 64) n

/-- Go's `sha256.Sum256`. -/
def Sum256 (data : Bytes) : Bytes :=
  let p := padMessage data
  let d := blocks Digest.init p (p.length / 64)
  be32 d.h0 ++ be32 d.h1 ++ be32 d.h2 ++ be32 d.h3 ++
    be32 d.h4 ++ be32 d.h5 ++ be32 d.h6 ++ be32 d.h7

/-- One lowercase hexadecimal digit. -/
def hexDigit (n : Nat) : Char :=
  if n < 10 then Char.ofNat (48 + n) else Char.ofNat (87 + n)

/-- The verb `%x` of `fmt` on a byte array: two lowercase hexadecimal digits
per byte, nothing in between. -/
def fmtX (b : Bytes) : String :=
  String.mk (b.flatMap fun x => [hexDigit (x / 16 % 16), hexDigit (x % 16)])

/-- The bytes of a Go string (UTF-8). -/
def bytesOf (s : String) : Bytes :=
  (s.data.flatMap String.utf8EncodeChar).map UInt8.toNat

/-! ## `FetchEPG` and `HealthCheck` -/

/-- The shared secret, constant `salt`. -/
def salt : String := "6ca114a836ac7d73"

/-- Modelled from the spec: the constant `provider.HeaderUserAgent` is not
among the available sources; the request carries the headers `User-Agent`,
`TimeStamp` and `Sign` (spec section 6, request shape). -/
def HeaderUserAgent : String := "User-Agent"

/-- The local `starOfTheDay` of `FetchEPG`. -/
def starOfTheDay (date : Date) (location : Location) : Int :=
  dateUnix date.Year date.Month date.Day 0 0 0 location

/-- The local `sign` of `FetchEPG`: `sha256.Sum256(fmt.Appendf(nil, "%s%d", salt, ts))`. -/
def sign (ts : Int) : Bytes :=
  Sum256 (bytesOf (salt ++ fmtD ts))

/-- The map literal `headers` of `FetchEPG`, entries in source order. -/
def headers (env : Env) (ts : Int) : List (String × String) :=
  [(HeaderUserAgent, env.DefaultUserAgent),
   ("TimeStamp", fmtD ts),
   ("Sign", fmtX (sign ts))]

/-- The local `path` of `FetchEPG`. -/
def requestPath (providerChannelID : String) (starOfTheDay : Int) : String :=
  "/program/getAuth/vod/originStream/program/" ++ providerChannelID ++ "/" ++
    fmtD starOfTheDay

/-- `DaxiangProvider.FetchEPG`; `now` is the value `time.Now().Unix()` read
inside the call. -/
def FetchEPG (env : Env) (providerChannelID channelID : String) (date : Date)
    (now : Int) : FetchResult :=
  match env.LoadLocation env.UTC8Location with
  | .error err => (none, some (.other err))
  | .ok location =>
    let ts := now
    let path := requestPath providerChannelID (starOfTheDay date location)
    match env.GetWithHeaders path (headers env ts) with
    | .error err => (none, some err)
    | .ok res =>
      match ParseEPGResponse env res providerChannelID channelID date.Format with
      | (_, some err) => (none, some err)
      | (programData, none) => (programData, none)

/-- `DaxiangProvider.HealthCheck`; `today` is the `time.Now()` handed to
`FetchEPG` as the date, `now` the clock read inside `FetchEPG`. -/
def HealthCheck (env : Env) (today : Date) (now : Int) : ProviderHealth :=
  match FetchEPG env "145" "河南卫视" today now with
  | (_, some err) =>
    { Healthy := false, Message := "FetchEPG failed: " ++ env.errorText err }
  | (_, none) => { Healthy := true, Message := "OK" }

/-- The environment `env` with another decoder and another resolver, that is
with another parser behind the same zone loader and transport. -/
def Env.withParser (env : Env) (decode : Bytes → Except String ProgramResponse)
    (resolve : Int → Int → String → Location → Except GoError (Time × Time)) : Env :=
  { env with Unmarshal := decode, ProcessProgramTimeRangeFromTimestamp := resolve }

/-- The environment `env` with another transport. -/
def Env.withTransport (env : Env)
    (transport : String → List (String × String) → Except GoError Bytes) : Env :=
  { env with GetWithHeaders := transport }

/-! ## Specification-side definitions -/

/-- Modelled from the spec: the time-window resolver
`BaseProvider.ProcessProgramTimeRangeFromTimestamp` lives in
`internal/provider`, which is not among the available sources. Spec section
4.2: the raw start is validated against the day start of the target date in
the zone (the call fails with a date-range error when it is not within the
valid day-span window), a raw end not after the raw start fails with the same
error, and on success both raw values are returned as absolute instants. The
spec fixes neither the bounds of the window nor the reading of the date
label; both are the parameter `inDaySpan`. -/
def ProcessProgramTimeRangeFromTimestamp (inDaySpan : Int → String → Location → Bool)
    (rawStart rawEnd : Int) (date : String) (zone : Location) :
    Except GoError (Time × Time) :=
  if !inDaySpan rawStart date zone then .error (.other "date range")
  else if rawEnd ≤ rawStart then .error (.other "date range")
  else .ok (⟨rawStart, zone⟩, ⟨rawEnd, zone⟩)

/-- The record of one entry, in the words of the spec (section 4.3): both
timestamp fields parse as base-10 integers and the resolver accepts the pair;
otherwise the entry has no record. -/
def entryRecord (env : Env) (channelID date : String) (zone : Location)
    (entry : RawProgram) : Option Program :=
  (Atoi entry.BeginTime).bind fun st =>
    (Atoi entry.EndTime).bind fun et =>
      match env.ProcessProgramTimeRangeFromTimestamp st et date zone with
      | .ok window => some (mkProgram env channelID entry window.1 window.2)
      | .error _ => none

/-- An entry is well-formed and passes date-range validation in `zone`. -/
def entryValid (env : Env) (date : String) (zone : Location) (entry : RawProgram) : Prop :=
  ∃ st et window, Atoi entry.BeginTime = some st ∧ Atoi entry.EndTime = some et ∧
    env.ProcessProgramTimeRangeFromTimestamp st et date zone = .ok window

/-- Leap years of the Gregorian calendar. -/
def gregorianLeap (year : Int) : Prop :=
  year % 4 = 0 ∧ (year % 100 ≠ 0 ∨ year % 400 = 0)

instance (year : Int) : Decidable (gregorianLeap year) := by
  unfold gregorianLeap; exact inferInstance

/-- Length of month `m` (1 to 12) of `year`. -/
def daysInMonth (year : Int) (m : Nat) : Int :=
  if m = 2 then (if gregorianLeap year then 29 else 28)
  else if m = 4 ∨ m = 6 ∨ m = 9 ∨ m = 11 then 30
  else 31

/-- Number of leap years among the years `1 .. year - 1`. -/
def leapYearsBefore (year : Int) : Int :=
  (year - 1) / 4 - (year - 1) / 100 + (year - 1) / 400

/-- Days from 1970-01-01 to the calendar day `year`-`month`-`day`: whole
years since 1970, whole months of the year before `month`, and days of the
month before `day`. -/
def daysFrom1970 (year month day : Int) : Int :=
  365 * (year - 1970) + (leapYearsBefore year - leapYearsBefore 1970) +
    ((List.range (month.toNat - 1)).map fun i => daysInMonth year (i + 1)).sum +
    (day - 1)

/-- The decimal digit of the units of `n`, as a character. -/
def digitOf (n : Nat) : Char := Char.ofNat (48 + n % 10)

/-- The date label `YYYY-MM-DD`: four decimal digits of the year, two of the
month and two of the day, joined by hyphens. -/
def isoLabel (year month day : Nat) : String :=
  String.mk [digitOf (year / 1000), digitOf (year / 100), digitOf (year / 10), digitOf year,
    '-', digitOf (month / 10), digitOf month, '-', digitOf (day / 10), digitOf day]

/-! ## Concrete inputs -/

/-- The zone `Asia/Shanghai` seen as fixed UTC+8. -/
def shanghai : Location := ⟨"Asia/Shanghai", 28800, []⟩

/-- A day-span window for the target day 2024-03-01 in UTC+8: the raw start
lies within the 24 hours after the day start 1709222400. -/
def march1Window (rawStart : Int) (_date : String) (_zone : Location) : Bool :=
  decide (1709222400 ≤ rawStart) && decide (rawStart < 1709222400 + 86400)

/-- An environment whose decoder answers `resp` for every payload, whose zone
loads exactly when `zoneLoads`, and whose transport answers `reply`. -/
def sampleEnv (resp : ProgramResponse) (zoneLoads : Bool)
    (reply : Except GoError Bytes) : Env :=
  { GetID := "daxiang"
    UTC8Location := "Asia/Shanghai"
    DefaultUserAgent := "Mozilla/5.0"
    Unmarshal := fun _ => .ok resp
    LoadLocation := fun name =>
      if zoneLoads then .ok ⟨name, 28800, []⟩ else .error ("unknown time zone " ++ name)
    ProcessProgramTimeRangeFromTimestamp := ProcessProgramTimeRangeFromTimestamp march1Window
    GetWithHeaders := fun _ _ => reply
    errorText := fun err =>
      match err with
      | .ProviderParseFailed id cause => id ++ ": parse failed: " ++ cause
      | .ProviderAPIError id code msg => id ++ ": api error " ++ code ++ ": " ++ msg
      | .other text => text }

/-- Morning news, 08:00 to 09:00 on 2024-03-01 (UTC+8). -/
def news : RawProgram := ⟨"Morning News", "1709251200", "1709254800"⟩

/-- A drama from 09:00 to 10:00 on 2024-03-01 (UTC+8). -/
def drama : RawProgram := ⟨"Drama", "1709254800", "1709258400"⟩

/-- An entry whose `beginTime` is not numeric. -/
def broken : RawProgram := ⟨"Broken", "eight", "1709254800"⟩

/-- The record of `news` for the caller's channel `henan`. -/
def newsRecord : Program :=
  ⟨"henan", "Morning News", ⟨1709251200, shanghai⟩, ⟨1709254800, shanghai⟩,
   "Asia/Shanghai", "daxiang"⟩

/-- The record of `drama` for the caller's channel `henan`. -/
def dramaRecord : Program :=
  ⟨"henan", "Drama", ⟨1709254800, shanghai⟩, ⟨1709258400, shanghai⟩,
   "Asia/Shanghai", "daxiang"⟩

/-- The zone `Asia/Shanghai` of the IANA time zone database: local mean time
(+8:05:43) until 1901, then UTC+8 with daylight saving time (UTC+9) in 1919,
from 1940 to 1949 and from 1986 to 1991. -/
def asiaShanghai : Location :=
  ⟨"Asia/Shanghai", 29143,
   [(-2177481943, 28800), (-1600675200, 32400), (-1585904400, 28800),
    (-933667200, 32400), (-922093200, 28800), (-908870400, 32400),
    (-888829200, 28800), (-881049600, 32400), (-767869200, 28800),
    (-745833600, 32400), (-733827600, 28800), (-716889600, 32400),
    (-699613200, 28800), (-683884800, 32400), (-670669200, 28800),
    (-652348800, 32400), (-650019600, 28800), (515527200, 32400),
    (527014800, 28800), (545162400, 32400), (558464400, 28800),
    (577216800, 32400), (589914000, 28800), (608666400, 32400),
    (621968400, 28800), (640116000, 32400), (653418000, 28800),
    (671565600, 32400), (684867600, 28800)]⟩

/-- A day-span window that reads the date label: only the label `2024-03-01`
is known, and the raw start has to lie within that day in UTC+8. -/
def march1LabelWindow (rawStart : Int) (date : String) (zone : Location) : Bool :=
  decide (date = "2024-03-01") && march1Window rawStart date zone

/-- An environment whose decoder answers the envelope holding `news`, whose
zone loads, whose resolver reads the date label, and whose transport answers
`reply`. -/
def labelEnv (reply : Except GoError Bytes) : Env :=
  { sampleEnv ⟨0, "ok", true, [news]⟩ true reply with
    ProcessProgramTimeRangeFromTimestamp :=
      ProcessProgramTimeRangeFromTimestamp march1LabelWindow }

/-- The sample environment with the zone of the time zone database loaded. -/
def tzEnv : Env :=
  { sampleEnv ⟨0, "ok", true, []⟩ true (.ok []) with
    LoadLocation := fun _ => .ok asiaShanghai }

/-- A transport that sends nothing and fails with the path it was given as
the text of its error. -/
def echoPath (path : String) (_headers : List (String × String)) : Except GoError Bytes :=
  .error (.other path)

/-- One line per header, `key=value`, joined by semicolons. -/
def renderHeaders (hdrs : List (String × String)) : String :=
  String.intercalate ";" (hdrs.map fun kv => kv.1 ++ "=" ++ kv.2)

/-! ## The parser -/

theorem foldl_parseStep (env : Env) (channelID date : String) (location : Location)
    (entries : List RawProgram) (acc : List Program) :
    entries.foldl (parseStep env channelID date location) acc =
      acc ++ entries.filterMap (entryRecord env channelID date location) := by
  induction entries generalizing acc with
  | nil => simp
  | cons e rest ih =>
    rw [List.foldl_cons, ih]
    unfold parseStep entryRecord
    cases hb : Atoi e.BeginTime with
    | none => simp [List.filterMap_cons, hb]
    | some st =>
      cases he : Atoi e.EndTime with
      | none => simp [List.filterMap_cons, hb, he]
      | some et =>
        cases hr : env.ProcessProgramTimeRangeFromTimestamp st et date location with
        | error err => simp [List.filterMap_cons, hb, he, hr]
        | ok window =>
          obtain ⟨s, t⟩ := window
          simp [List.filterMap_cons, hb, he, hr]

theorem parseEnvelope_ok (env : Env) (resp : ProgramResponse) (channelID date : String)
    (location : Location) (hcode : resp.Code ≠ -2)
    (hzone : env.LoadLocation env.UTC8Location = .ok location) :
    parseEnvelope env resp channelID date =
      (some (resp.Programs.filterMap (entryRecord env channelID date location)), none) := by
  unfold parseEnvelope
  rw [if_neg hcode]
  by_cases hlen : resp.Programs.length = 0
  · rw [if_pos hlen]
    have : resp.Programs = [] := List.length_eq_zero.mp hlen
    simp [this]
  · rw [if_neg hlen, hzone]
    simp [foldl_parseStep]

theorem entryRecord_of_valid (env : Env) (channelID date : String) (zone : Location)
    (entry : RawProgram) (h : entryValid env date zone entry) :
    ∃ r, entryRecord env channelID date zone entry = some r := by
  obtain ⟨st, et, window, hb, he, hr⟩ := h
  exact ⟨mkProgram env channelID entry window.1 window.2, by simp [entryRecord, hb, he, hr]⟩

theorem filterMap_all_some {α β : Type} (f : α → Option β) (l : List α)
    (h : ∀ a ∈ l, ∃ b, f a = some b) : (l.filterMap f).map some = l.map f := by
  induction l with
  | nil => simp
  | cons a rest ih =>
    obtain ⟨b, hb⟩ := h a (List.mem_cons_self a rest)
    have hrest := ih fun x hx => h x (List.mem_cons_of_mem a hx)
    simp [List.filterMap_cons, hb, hrest]

theorem entryRecord_before (env : Env) (inDaySpan : Int → String → Location → Bool)
    (channelID date : String) (zone : Location) (entry : RawProgram) (r : Program)
    (hres : env.ProcessProgramTimeRangeFromTimestamp =
      ProcessProgramTimeRangeFromTimestamp inDaySpan)
    (h : entryRecord env channelID date zone entry = some r) :
    r.StartTime.Before r.EndTime := by
  unfold entryRecord at h
  cases hb : Atoi entry.BeginTime with
  | none => simp [hb] at h
  | some st =>
    cases he : Atoi entry.EndTime with
    | none => simp [hb, he] at h
    | some et =>
      simp only [hb, he, Option.bind_some, hres, ProcessProgramTimeRangeFromTimestamp] at h
      by_cases hw : inDaySpan st date zone = true
      · by_cases hle : et ≤ st
        · simp [hw, hle] at h
        · simp [hw, hle] at h
          subst h
          simp only [mkProgram, Time.Before]
          omega
      · simp [hw] at h

/-- C1 (amended): for every well-formed envelope whose code is not -2, when the
fixed zone loads and every entry has `beginTime` and `endTime` accepted by
`Atoi` and passes the time-window resolver, `ParseEPGResponse` returns no
error and exactly one record per entry, the i-th record built from the i-th
entry (same order, duplicates kept), each with `StartTime` strictly before
`EndTime`. -/
theorem ParseEPGResponse_round_trip (env : Env)
    (inDaySpan : Int → String → Location → Bool) (data : Bytes)
    (providerChannelID channelID date : String) (resp : ProgramResponse)
    (zone : Location)
    (hdec : env.Unmarshal data = .ok resp) (hcode : resp.Code ≠ -2)
    (hzone : env.LoadLocation env.UTC8Location = .ok zone)
    (hres : env.ProcessProgramTimeRangeFromTimestamp =
      ProcessProgramTimeRangeFromTimestamp inDaySpan)
    (hall : ∀ e ∈ resp.Programs, entryValid env date zone e) :
    ∃ records,
      ParseEPGResponse env data providerChannelID channelID date = (some records, none) ∧
      records.length = resp.Programs.length ∧
      records.map some = resp.Programs.map (entryRecord env channelID date zone) ∧
      ∀ r ∈ records, r.StartTime.Before r.EndTime := by
  refine ⟨resp.Programs.filterMap (entryRecord env channelID date zone), ?_, ?_, ?_, ?_⟩
  · simp only [ParseEPGResponse, hdec]
    exact parseEnvelope_ok env resp channelID date zone hcode hzone
  · have h := congrArg List.length
      (filterMap_all_some (entryRecord env channelID date zone) resp.Programs
        fun e he => entryRecord_of_valid env channelID date zone e (hall e he))
    simpa using h
  · exact filterMap_all_some (entryRecord env channelID date zone) resp.Programs
      fun e he => entryRecord_of_valid env channelID date zone e (hall e he)
  · intro r hr
    obtain ⟨e, _, he⟩ := List.mem_filterMap.mp hr
    exact entryRecord_before env inDaySpan channelID date zone e r hres he

theorem news_valid (resp : ProgramResponse) (b : Bool) (reply : Except GoError Bytes)
    (zone : Location) : entryValid (sampleEnv resp b reply) "2024-03-01" zone news :=
  ⟨1709251200, 1709254800, (⟨1709251200, zone⟩, ⟨1709254800, zone⟩), by decide, by decide, rfl⟩

theorem drama_valid (resp : ProgramResponse) (b : Bool) (reply : Except GoError Bytes)
    (zone : Location) : entryValid (sampleEnv resp b reply) "2024-03-01" zone drama :=
  ⟨1709254800, 1709258400, (⟨1709254800, zone⟩, ⟨1709258400, zone⟩), by decide, by decide, rfl⟩

/-- Witness of C1 (amended): three valid entries, one of them twice, give
three records. -/
theorem ParseEPGResponse_round_trip_witness :
    ∃ records,
      ParseEPGResponse (sampleEnv ⟨0, "ok", true, [news, drama, news]⟩ true (.ok []))
        [] "145" "henan" "2024-03-01" = (some records, none) ∧
      records.length = [news, drama, news].length ∧
      records.map some = [news, drama, news].map
        (entryRecord (sampleEnv ⟨0, "ok", true, [news, drama, news]⟩ true (.ok []))
          "henan" "2024-03-01" ⟨"Asia/Shanghai", 28800, []⟩) ∧
      ∀ r ∈ records, r.StartTime.Before r.EndTime :=
  ParseEPGResponse_round_trip (sampleEnv ⟨0, "ok", true, [news, drama, news]⟩ true (.ok []))
    march1Window [] "145" "henan" "2024-03-01" ⟨0, "ok", true, [news, drama, news]⟩
    ⟨"Asia/Shanghai", 28800, []⟩ rfl (by decide) rfl rfl
    (by
      intro e he
      simp only [List.mem_cons, List.mem_singleton, List.not_mem_nil, or_false] at he
      rcases he with h | h | h
      · subst h; exact news_valid _ _ _ _
      · subst h; exact drama_valid _ _ _ _
      · subst h; exact news_valid _ _ _ _)

/-- Counterexample to C1 as stated: a well-formed envelope with code 0 and one
entry whose timestamps parse and which the resolver accepts in every zone, yet
the call returns the zone-loading error and no records, because the fixed zone
does not load. -/
theorem ParseEPGResponse_round_trip_zone_failure :
    (sampleEnv ⟨0, "ok", true, [news]⟩ false (.ok [])).Unmarshal [] =
        .ok ⟨0, "ok", true, [news]⟩ ∧
      (⟨0, "ok", true, [news]⟩ : ProgramResponse).Code ≠ -2 ∧
      1 ≤ (⟨0, "ok", true, [news]⟩ : ProgramResponse).Programs.length ∧
      (sampleEnv ⟨0, "ok", true, [news]⟩ false (.ok [])).ProcessProgramTimeRangeFromTimestamp =
        ProcessProgramTimeRangeFromTimestamp march1Window ∧
      (∀ zone, ∀ e ∈ (⟨0, "ok", true, [news]⟩ : ProgramResponse).Programs,
        entryValid (sampleEnv ⟨0, "ok", true, [news]⟩ false (.ok [])) "2024-03-01" zone e) ∧
      ParseEPGResponse (sampleEnv ⟨0, "ok", true, [news]⟩ false (.ok []))
        [] "145" "henan" "2024-03-01" =
        (none, some (.other "unknown time zone Asia/Shanghai")) := by
  refine ⟨rfl, by decide, by decide, rfl, ?_, by decide⟩
  intro zone e he
  simp only [List.mem_singleton] at he
  subst he
  exact news_valid _ _ _ _

/-- C2: for every well-formed envelope with code other than -2 and a loadable
zone, `ParseEPGResponse` returns no error and its output is exactly the
records of the entries whose two timestamps parse and whose pair the resolver
accepts, in input order; an entry without a record is skipped and leaves the
records of the entries before and after it as they are; for three entries of
which the second has a `beginTime` that `Atoi` rejects and the other two have
records, the output is exactly the records of the first and the third. -/
theorem ParseEPGResponse_partial_tolerance (env : Env) (data : Bytes)
    (providerChannelID channelID date : String) (resp : ProgramResponse)
    (zone : Location)
    (hdec : env.Unmarshal data = .ok resp) (hcode : resp.Code ≠ -2)
    (hzone : env.LoadLocation env.UTC8Location = .ok zone) :
    ParseEPGResponse env data providerChannelID channelID date =
        (some (resp.Programs.filterMap (entryRecord env channelID date zone)), none) ∧
      (∀ before entry after, resp.Programs = before ++ entry :: after →
        entryRecord env channelID date zone entry = none →
        ParseEPGResponse env data providerChannelID channelID date =
          (some (before.filterMap (entryRecord env channelID date zone) ++
            after.filterMap (entryRecord env channelID date zone)), none)) ∧
      (∀ e1 e2 e3 r1 r3, resp.Programs = [e1, e2, e3] →
        Atoi e2.BeginTime = none →
        entryRecord env channelID date zone e1 = some r1 →
        entryRecord env channelID date zone e3 = some r3 →
        ParseEPGResponse env data providerChannelID channelID date =
          (some [r1, r3], none)) := by
  have hmain : ParseEPGResponse env data providerChannelID channelID date =
      (some (resp.Programs.filterMap (entryRecord env channelID date zone)), none) := by
    simp only [ParseEPGResponse, hdec]
    exact parseEnvelope_ok env resp channelID date zone hcode hzone
  refine ⟨hmain, ?_, ?_⟩
  · intro before entry after hsplit hnone
    rw [hmain, hsplit]
    simp [List.filterMap_append, List.filterMap_cons, hnone]
  · intro e1 e2 e3 r1 r3 hthree hbad h1 h3
    have h2 : entryRecord env channelID date zone e2 = none := by
      simp [entryRecord, hbad]
    rw [hmain, hthree]
    simp [List.filterMap_cons, h1, h2, h3]

/-- Witness of C2: of the entries news, broken, drama the call returns the
records of news and drama. -/
theorem ParseEPGResponse_partial_tolerance_witness :
    ParseEPGResponse (sampleEnv ⟨0, "ok", true, [news, broken, drama]⟩ true (.ok []))
        [] "145" "henan" "2024-03-01" =
      (some [⟨"henan", "Morning News", ⟨1709251200, shanghai⟩, ⟨1709254800, shanghai⟩,
              "Asia/Shanghai", "daxiang"⟩,
             ⟨"henan", "Drama", ⟨1709254800, shanghai⟩, ⟨1709258400, shanghai⟩,
              "Asia/Shanghai", "daxiang"⟩], none) :=
  (ParseEPGResponse_partial_tolerance
    (sampleEnv ⟨0, "ok", true, [news, broken, drama]⟩ true (.ok []))
    [] "145" "henan" "2024-03-01" ⟨0, "ok", true, [news, broken, drama]⟩ shanghai
    rfl (by decide) rfl).2.2 news broken drama _ _ rfl (by decide) (by decide) (by decide)

/-- C3: for every well-formed envelope with code -2, `ParseEPGResponse` returns
the provider-API error carrying the adapter id, the code rendered as `-2` and
the envelope's `msg`, and no records, whatever the programs and the success
flag are. -/
theorem ParseEPGResponse_sentinel (env : Env) (data : Bytes)
    (providerChannelID channelID date : String) (resp : ProgramResponse)
    (hdec : env.Unmarshal data = .ok resp) (hcode : resp.Code = -2) :
    ParseEPGResponse env data providerChannelID channelID date =
      (none, some (.ProviderAPIError env.GetID "-2" resp.Msg)) := by
  simp only [ParseEPGResponse, hdec, parseEnvelope, hcode, if_true]
  rfl

/-- Witness of C3: code -2 with valid entries and `success: true`. -/
theorem ParseEPGResponse_sentinel_witness :
    ParseEPGResponse (sampleEnv ⟨-2, "forbidden", true, [news, broken]⟩ true (.ok []))
        [] "145" "henan" "2024-03-01" =
      (none, some (.ProviderAPIError "daxiang" "-2" "forbidden")) :=
  ParseEPGResponse_sentinel (sampleEnv ⟨-2, "forbidden", true, [news, broken]⟩ true (.ok []))
    [] "145" "henan" "2024-03-01" ⟨-2, "forbidden", true, [news, broken]⟩ rfl rfl

/-- C4: for every well-formed envelope that lists zero entries and whose code
is not -2, `ParseEPGResponse` returns the empty, non-nil sequence and no
error, and it does so whatever the zone loader answers. -/
theorem ParseEPGResponse_empty (env : Env) (data : Bytes)
    (providerChannelID channelID date : String) (resp : ProgramResponse)
    (hdec : env.Unmarshal data = .ok resp) (hcode : resp.Code ≠ -2)
    (hempty : resp.Programs.length = 0) :
    ParseEPGResponse env data providerChannelID channelID date = (some [], none) ∧
      ∀ load : String → Except String Location,
        ParseEPGResponse { env with LoadLocation := load } data
          providerChannelID channelID date = (some [], none) := by
  constructor
  · simp [ParseEPGResponse, hdec, parseEnvelope, hcode, hempty]
  · intro load
    simp [ParseEPGResponse, hdec, parseEnvelope, hcode, hempty]

/-- Witness of C4: an empty programs list while the zone does not load. -/
theorem ParseEPGResponse_empty_witness :
    ParseEPGResponse (sampleEnv ⟨0, "ok", true, []⟩ false (.ok []))
        [] "145" "henan" "2024-03-01" = (some [], none) :=
  (ParseEPGResponse_empty (sampleEnv ⟨0, "ok", true, []⟩ false (.ok []))
    [] "145" "henan" "2024-03-01" ⟨0, "ok", true, []⟩ rfl (by decide) rfl).1

theorem entryRecord_fields (env : Env) (channelID date : String) (zone : Location)
    (entry : RawProgram) (r : Program)
    (h : entryRecord env channelID date zone entry = some r) :
    ∃ st et, Atoi entry.BeginTime = some st ∧ Atoi entry.EndTime = some et ∧
      env.ProcessProgramTimeRangeFromTimestamp st et date zone =
        .ok (r.StartTime, r.EndTime) ∧
      r.ChannelID = channelID ∧ r.Title = entry.Title ∧
      r.OriginalTimezone = env.UTC8Location ∧ r.ProviderID = env.GetID := by
  unfold entryRecord at h
  cases hb : Atoi entry.BeginTime with
  | none => simp [hb] at h
  | some st =>
    cases he : Atoi entry.EndTime with
    | none => simp [hb, he] at h
    | some et =>
      cases hr : env.ProcessProgramTimeRangeFromTimestamp st et date zone with
      | error err => simp [hb, he, hr] at h
      | ok window =>
        simp [hb, he, hr] at h
        subst h
        exact ⟨st, et, rfl, rfl, hr, rfl, rfl, rfl, rfl⟩

theorem parseEnvelope_records (env : Env) (resp : ProgramResponse)
    (channelID date : String) (records : List Program) (err : Option GoError)
    (h : parseEnvelope env resp channelID date = (some records, err)) :
    records = [] ∨ ∃ zone, env.LoadLocation env.UTC8Location = .ok zone ∧
      records = resp.Programs.filterMap (entryRecord env channelID date zone) := by
  unfold parseEnvelope at h
  by_cases hcode : resp.Code = -2
  · simp [hcode] at h
  · rw [if_neg hcode] at h
    by_cases hlen : resp.Programs.length = 0
    · rw [if_pos hlen] at h
      left
      have := congrArg Prod.fst h
      simpa using this.symm
    · rw [if_neg hlen] at h
      cases hz : env.LoadLocation env.UTC8Location with
      | error e => simp [hz] at h
      | ok zone =>
        right
        refine ⟨zone, rfl, ?_⟩
        simp only [hz, foldl_parseStep, List.nil_append] at h
        have := congrArg Prod.fst h
        simpa using this.symm

/-- C5: every record emitted by `ParseEPGResponse` has `ChannelID` equal to the
`channelID` argument (whatever `providerChannelID` is), `Title` equal to the
title of an entry of the envelope from which it was built, `StartTime` and
`EndTime` equal to the pair the resolver returned for that entry's parsed
timestamps, `OriginalTimezone` equal to `provider.UTC8Location` and
`ProviderID` equal to `p.GetID()`. -/
theorem ParseEPGResponse_record_fields (env : Env) (data : Bytes)
    (providerChannelID channelID date : String) :
    ∀ records err,
      ParseEPGResponse env data providerChannelID channelID date = (some records, err) →
      ∀ r ∈ records,
        r.ChannelID = channelID ∧ r.OriginalTimezone = env.UTC8Location ∧
        r.ProviderID = env.GetID ∧
        ∃ resp zone entry st et,
          env.Unmarshal data = .ok resp ∧
          env.LoadLocation env.UTC8Location = .ok zone ∧
          entry ∈ resp.Programs ∧
          Atoi entry.BeginTime = some st ∧ Atoi entry.EndTime = some et ∧
          env.ProcessProgramTimeRangeFromTimestamp st et date zone =
            .ok (r.StartTime, r.EndTime) ∧
          r.Title = entry.Title := by
  intro records err h r hr
  unfold ParseEPGResponse at h
  cases hdec : env.Unmarshal data with
  | error e => simp [hdec] at h
  | ok resp =>
    simp only [hdec] at h
    rcases parseEnvelope_records env resp channelID date records err h with hnil | ⟨zone, hz, hrec⟩
    · subst hnil
      simp at hr
    · subst hrec
      obtain ⟨entry, hmem, hentry⟩ := List.mem_filterMap.mp hr
      obtain ⟨st, et, hb, he, hres, hc, ht, ho, hp⟩ :=
        entryRecord_fields env channelID date zone entry r hentry
      exact ⟨hc, ho, hp, resp, zone, entry, st, et, rfl, hz, hmem, hb, he, hres, ht⟩

/-- C10: for two well-formed envelopes with the same programs list whose codes
both differ from -2, `ParseEPGResponse` returns the same result whatever
their `code`, `msg` and `success` are; that result is the one of the envelope
with code 0 and `success: true` over the same programs, and it is never a
provider-API error. -/
theorem ParseEPGResponse_code_insensitive (env : Env) (data1 data2 : Bytes)
    (providerChannelID channelID date : String) (resp1 resp2 : ProgramResponse)
    (hdec1 : env.Unmarshal data1 = .ok resp1) (hdec2 : env.Unmarshal data2 = .ok resp2)
    (hsame : resp1.Programs = resp2.Programs)
    (hcode1 : resp1.Code ≠ -2) (hcode2 : resp2.Code ≠ -2) :
    ParseEPGResponse env data1 providerChannelID channelID date =
        ParseEPGResponse env data2 providerChannelID channelID date ∧
      ParseEPGResponse env data1 providerChannelID channelID date =
        parseEnvelope env ⟨0, "", true, resp1.Programs⟩ channelID date ∧
      ∀ id code msg,
        (ParseEPGResponse env data1 providerChannelID channelID date).2 ≠
          some (.ProviderAPIError id code msg) := by
  have h0 : ∀ resp : ProgramResponse, resp.Code ≠ -2 →
      parseEnvelope env resp channelID date =
        parseEnvelope env ⟨0, "", true, resp.Programs⟩ channelID date := by
    intro resp hc
    simp [parseEnvelope, hc]
  refine ⟨?_, ?_, ?_⟩
  · simp only [ParseEPGResponse, hdec1, hdec2]
    rw [h0 resp1 hcode1, h0 resp2 hcode2, hsame]
  · simp only [ParseEPGResponse, hdec1]
    exact h0 resp1 hcode1
  · intro id code msg
    simp only [ParseEPGResponse, hdec1, parseEnvelope, if_neg hcode1]
    by_cases hlen : resp1.Programs.length = 0
    · simp [hlen]
    · rw [if_neg hlen]
      cases hz : env.LoadLocation env.UTC8Location <;> simp

/-- Witness of C10: code 500 with `success: false` against code 0 with
`success: true`, over the same programs. -/
theorem ParseEPGResponse_code_insensitive_witness :
    ParseEPGResponse
        { sampleEnv ⟨0, "ok", true, [news]⟩ true (.ok []) with
          Unmarshal := fun data =>
            if data = [] then .ok ⟨500, "internal error", false, [news]⟩
            else .ok ⟨0, "ok", true, [news]⟩ }
        [] "145" "henan" "2024-03-01" =
      ParseEPGResponse
        { sampleEnv ⟨0, "ok", true, [news]⟩ true (.ok []) with
          Unmarshal := fun data =>
            if data = [] then .ok ⟨500, "internal error", false, [news]⟩
            else .ok ⟨0, "ok", true, [news]⟩ }
        [1] "145" "henan" "2024-03-01" :=
  (ParseEPGResponse_code_insensitive
    { sampleEnv ⟨0, "ok", true, [news]⟩ true (.ok []) with
      Unmarshal := fun data =>
        if data = [] then .ok ⟨500, "internal error", false, [news]⟩
        else .ok ⟨0, "ok", true, [news]⟩ }
    [] [1] "145" "henan" "2024-03-01"
    ⟨500, "internal error", false, [news]⟩ ⟨0, "ok", true, [news]⟩
    rfl rfl rfl (by decide) (by decide)).1

/-- Witness of C5: the record of `news` among those parsed for the caller's
channel `henan` (provider channel `145`). -/
theorem ParseEPGResponse_record_fields_witness :
    newsRecord.ChannelID = "henan" ∧ newsRecord.OriginalTimezone = "Asia/Shanghai" ∧
      newsRecord.ProviderID = "daxiang" ∧
      ∃ resp zone entry st et,
        (sampleEnv ⟨0, "ok", true, [news, broken, drama]⟩ true (.ok [])).Unmarshal [] =
          .ok resp ∧
        (sampleEnv ⟨0, "ok", true, [news, broken, drama]⟩ true (.ok [])).LoadLocation
          "Asia/Shanghai" = .ok zone ∧
        entry ∈ resp.Programs ∧
        Atoi entry.BeginTime = some st ∧ Atoi entry.EndTime = some et ∧
        (sampleEnv ⟨0, "ok", true, [news, broken, drama]⟩ true
          (.ok [])).ProcessProgramTimeRangeFromTimestamp st et "2024-03-01" zone =
          .ok (newsRecord.StartTime, newsRecord.EndTime) ∧
        newsRecord.Title = entry.Title :=
  ParseEPGResponse_record_fields
    (sampleEnv ⟨0, "ok", true, [news, broken, drama]⟩ true (.ok []))
    [] "145" "henan" "2024-03-01" [newsRecord, dramaRecord] none (by decide)
    newsRecord (List.mem_cons_self _ _)

/-! ## `FetchEPG` and `HealthCheck` -/

theorem ParseEPGResponse_shape (env : Env) (data : Bytes)
    (providerChannelID channelID date : String) :
    (∃ records, ParseEPGResponse env data providerChannelID channelID date =
        (some records, none)) ∨
      ∃ err, ParseEPGResponse env data providerChannelID channelID date =
        (none, some err) := by
  unfold ParseEPGResponse
  cases hdec : env.Unmarshal data with
  | error e => exact Or.inr ⟨_, rfl⟩
  | ok resp =>
    simp only [parseEnvelope]
    by_cases hcode : resp.Code = -2
    · rw [if_pos hcode]; exact Or.inr ⟨_, rfl⟩
    · rw [if_neg hcode]
      by_cases hlen : resp.Programs.length = 0
      · rw [if_pos hlen]; exact Or.inl ⟨_, rfl⟩
      · rw [if_neg hlen]
        cases hz : env.LoadLocation env.UTC8Location with
        | error e => exact Or.inr ⟨_, rfl⟩
        | ok zone => exact Or.inl ⟨_, rfl⟩

theorem digitChar_eq (k : Nat) (h : k < 10) : Nat.digitChar k = digitOf k := by
  interval_cases k <;> rfl

theorem toDigitsCore_lt (fuel n : Nat) (ds : List Char) (h : n < 10) :
    Nat.toDigitsCore 10 (fuel + 1) n ds = digitOf n :: ds := by
  simp [Nat.toDigitsCore, Nat.div_eq_of_lt h, Nat.mod_eq_of_lt h, digitChar_eq n h]

theorem toDigitsCore_ge (fuel n : Nat) (ds : List Char) (h : 10 ≤ n) :
    Nat.toDigitsCore 10 (fuel + 1) n ds =
      Nat.toDigitsCore 10 fuel (n / 10) (digitOf n :: ds) := by
  have hne : n / 10 ≠ 0 := by omega
  have hd : Nat.digitChar (n % 10) = digitOf n := by
    rw [digitChar_eq _ (Nat.mod_lt _ (by decide))]
    simp [digitOf]
  simp [Nat.toDigitsCore, hne, hd]

theorem repr_data (n : Nat) (h : n < 10000) :
    (Nat.repr n).data =
      if n < 10 then [digitOf n]
      else if n < 100 then [digitOf (n / 10), digitOf n]
      else if n < 1000 then [digitOf (n / 100), digitOf (n / 10), digitOf n]
      else [digitOf (n / 1000), digitOf (n / 100), digitOf (n / 10), digitOf n] := by
  simp only [Nat.repr, Nat.toDigits, List.asString]
  by_cases h1 : n < 10
  · rw [if_pos h1, toDigitsCore_lt _ _ _ h1]
  · rw [if_neg h1, toDigitsCore_ge _ _ _ (by omega)]
    obtain ⟨f, rfl⟩ : ∃ f, n = f + 1 := ⟨n - 1, by omega⟩
    by_cases h2 : f + 1 < 100
    · rw [if_pos h2, toDigitsCore_lt _ _ _ (by omega)]
    · rw [if_neg h2, toDigitsCore_ge _ _ _ (by omega)]
      obtain ⟨g, rfl⟩ : ∃ g, f = g + 1 := ⟨f - 1, by omega⟩
      have e1 : (g + 1 + 1) / 10 / 10 = (g + 1 + 1) / 100 := by omega
      by_cases h3 : g + 1 + 1 < 1000
      · rw [if_pos h3, toDigitsCore_lt _ _ _ (by omega), e1]
      · rw [if_neg h3, toDigitsCore_ge _ _ _ (by omega)]
        obtain ⟨k, rfl⟩ : ∃ k, g = k + 1 := ⟨g - 1, by omega⟩
        have e2 : (k + 1 + 1 + 1) / 10 / 10 = (k + 1 + 1 + 1) / 100 := by omega
        have e3 : (k + 1 + 1 + 1) / 10 / 10 / 10 = (k + 1 + 1 + 1) / 1000 := by omega
        rw [toDigitsCore_lt _ _ _ (by omega), e3, e2]

theorem digitOf_zero_of_lt (n k : Nat) (h : n < k) : digitOf (n / k) = '0' := by
  simp [digitOf, Nat.div_eq_of_lt h]

theorem appendInt_four (n : Nat) (h : n < 10000) :
    appendInt (n : Int) 4 =
      String.mk [digitOf (n / 1000), digitOf (n / 100), digitOf (n / 10), digitOf n] := by
  have hneg : ¬ ((n : Int) < 0) := by omega
  simp only [appendInt, hneg, if_false, Int.natAbs_ofNat, repr_data n h, List.leftpad]
  by_cases h1 : n < 10
  · simp [h1, digitOf_zero_of_lt n 1000 (by omega), digitOf_zero_of_lt n 100 (by omega),
      digitOf_zero_of_lt n 10 h1]
  · by_cases h2 : n < 100
    · simp [h1, h2, digitOf_zero_of_lt n 1000 (by omega), digitOf_zero_of_lt n 100 h2]
    · by_cases h3 : n < 1000
      · simp [h1, h2, h3, digitOf_zero_of_lt n 1000 h3]
      · simp [h1, h2, h3]

theorem appendInt_two (n : Nat) (h : n < 100) :
    appendInt (n : Int) 2 = String.mk [digitOf (n / 10), digitOf n] := by
  have hneg : ¬ ((n : Int) < 0) := by omega
  simp only [appendInt, hneg, if_false, Int.natAbs_ofNat, repr_data n (by omega), List.leftpad]
  by_cases h1 : n < 10
  · simp [h1, digitOf_zero_of_lt n 10 h1]
  · simp [h1, h]

theorem Format_isoLabel (date : Date) (hy0 : 0 ≤ date.Year) (hy : date.Year ≤ 9999)
    (hm0 : 0 ≤ date.Month) (hm : date.Month ≤ 99) (hd0 : 0 ≤ date.Day) (hd : date.Day ≤ 99) :
    date.Format = isoLabel date.Year.toNat date.Month.toNat date.Day.toNat := by
  obtain ⟨y, m, d⟩ := date
  simp only at hy0 hy hm0 hm hd0 hd
  lift y to Nat using hy0
  lift m to Nat using hm0
  lift d to Nat using hd0
  simp only [Date.Format, Int.toNat_ofNat]
  rw [appendInt_four y (by omega), appendInt_two m (by omega), appendInt_two d (by omega)]
  rfl

/-- C6: when the zone loads and the transport fails with error `e`, `FetchEPG`
returns exactly `e` and no records, whatever the decoder and the resolver of
the parser are; when the transport returns bytes `b`, the result of
`FetchEPG` is exactly the result of `ParseEPGResponse` on `b`, the two channel
ids and the date label `date.Format("2006-01-02")`; for a date of a year from
0 to 9999 that label is `YYYY-MM-DD`, the four digits of the year, the two of
the month and the two of the day. -/
theorem FetchEPG_propagates (env : Env) (providerChannelID channelID : String)
    (date : Date) (now : Int) (zone : Location)
    (hzone : env.LoadLocation env.UTC8Location = .ok zone) :
    (∀ e, env.GetWithHeaders (requestPath providerChannelID (starOfTheDay date zone))
          (headers env now) = .error e →
        ∀ (decode : Bytes → Except String ProgramResponse)
          (resolve : Int → Int → String → Location → Except GoError (Time × Time)),
          FetchEPG (env.withParser decode resolve)
            providerChannelID channelID date now = (none, some e)) ∧
      (∀ b, env.GetWithHeaders (requestPath providerChannelID (starOfTheDay date zone))
          (headers env now) = .ok b →
        FetchEPG env providerChannelID channelID date now =
          ParseEPGResponse env b providerChannelID channelID date.Format) ∧
      (0 ≤ date.Year → date.Year ≤ 9999 → 1 ≤ date.Month → date.Month ≤ 12 →
        1 ≤ date.Day → date.Day ≤ 31 →
        date.Format = isoLabel date.Year.toNat date.Month.toNat date.Day.toNat ∧
        ∀ b, env.GetWithHeaders (requestPath providerChannelID (starOfTheDay date zone))
            (headers env now) = .ok b →
          FetchEPG env providerChannelID channelID date now =
            ParseEPGResponse env b providerChannelID channelID
              (isoLabel date.Year.toNat date.Month.toNat date.Day.toNat)) ∧
      (date = ⟨2024, 3, 1⟩ → date.Format = "2024-03-01") := by
  have hbytes : ∀ b, env.GetWithHeaders
      (requestPath providerChannelID (starOfTheDay date zone)) (headers env now) = .ok b →
      FetchEPG env providerChannelID channelID date now =
        ParseEPGResponse env b providerChannelID channelID date.Format := by
    intro b hb
    simp only [FetchEPG, hzone, hb]
    rcases ParseEPGResponse_shape env b providerChannelID channelID date.Format with
      ⟨records, h⟩ | ⟨err, h⟩
    · rw [h]
    · rw [h]
  refine ⟨?_, hbytes, ?_, ?_⟩
  · intro e he decode resolve
    have hh : headers (env.withParser decode resolve) now = headers env now := rfl
    have hz : (env.withParser decode resolve).LoadLocation
        (env.withParser decode resolve).UTC8Location = .ok zone := hzone
    have hg : (env.withParser decode resolve).GetWithHeaders = env.GetWithHeaders := rfl
    simp only [FetchEPG, hz, hh, hg, he]
  · intro hy0 hy hm1 hm hd1 hd
    have hlabel := Format_isoLabel date hy0 hy (by omega) (by omega) (by omega) (by omega)
    refine ⟨hlabel, ?_⟩
    intro b hb
    rw [← hlabel]
    exact hbytes b hb
  · intro hdate
    rw [hdate]
    decide

/-- Witness of C6: with a resolver that reads the date label, the bytes branch
hands the parser the label `2024-03-01` for the date 2024-03-01 and returns
the record of `news` (under the empty label the parser returns no record); the
transport-error branch returns the error of the transport unchanged. -/
theorem FetchEPG_propagates_witness :
    FetchEPG (labelEnv (.ok [123])) "145" "henan" ⟨2024, 3, 1⟩ 1700000000 =
        ParseEPGResponse (labelEnv (.ok [123])) [123] "145" "henan" "2024-03-01" ∧
      FetchEPG (labelEnv (.ok [123])) "145" "henan" ⟨2024, 3, 1⟩ 1700000000 =
        (some [newsRecord], none) ∧
      ParseEPGResponse (labelEnv (.ok [123])) [123] "145" "henan" "" = (some [], none) ∧
      FetchEPG (labelEnv (.error (.other "connection refused"))) "145" "henan"
        ⟨2024, 3, 1⟩ 1700000000 = (none, some (.other "connection refused")) ∧
      (⟨2024, 3, 1⟩ : Date).Format = isoLabel 2024 3 1 ∧
      isoLabel 2024 3 1 = "2024-03-01" :=
  ⟨(FetchEPG_propagates (labelEnv (.ok [123])) "145" "henan" ⟨2024, 3, 1⟩ 1700000000
      ⟨"Asia/Shanghai", 28800, []⟩ rfl).2.1 [123] rfl,
   by decide, by decide,
   ((FetchEPG_propagates (labelEnv (.error (.other "connection refused"))) "145" "henan"
      ⟨2024, 3, 1⟩ 1700000000 ⟨"Asia/Shanghai", 28800, []⟩ rfl).1
      (.other "connection refused") rfl
      (labelEnv (.error (.other "connection refused"))).Unmarshal
      (labelEnv (.error (.other "connection refused"))).ProcessProgramTimeRangeFromTimestamp).trans
      (by decide),
   ((FetchEPG_propagates (labelEnv (.ok [123])) "145" "henan" ⟨2024, 3, 1⟩ 1700000000
      ⟨"Asia/Shanghai", 28800, []⟩ rfl).2.2.1
      (by decide) (by decide) (by decide) (by decide) (by decide) (by decide)).1,
   by decide⟩

/-- C9: `HealthCheck` fetches the probe channel `145` for the current date; it
answers `Healthy = true` with message `OK` exactly when that fetch returns no
error (also when it returns zero programs), and for every error `e` of the
fetch it answers `Healthy = false` with message `FetchEPG failed: ` followed
by the text of `e`; a health value is returned in every case. -/
theorem HealthCheck_reflects_fetch (env : Env) (today : Date) (now : Int) :
    ((FetchEPG env "145" "河南卫视" today now).2 = none →
        HealthCheck env today now = ⟨true, "OK"⟩) ∧
      (∀ e, (FetchEPG env "145" "河南卫视" today now).2 = some e →
        HealthCheck env today now = ⟨false, "FetchEPG failed: " ++ env.errorText e⟩) ∧
      ((HealthCheck env today now).Healthy = true ↔
        (FetchEPG env "145" "河南卫视" today now).2 = none) ∧
      (HealthCheck env today now = ⟨true, "OK"⟩ ↔
        (FetchEPG env "145" "河南卫视" today now).2 = none) ∧
      (FetchEPG env "145" "河南卫视" today now = (some [], none) →
        HealthCheck env today now = ⟨true, "OK"⟩) := by
  unfold HealthCheck
  rcases hfetch : FetchEPG env "145" "河南卫视" today now with ⟨records, _ | err⟩
  · simp
  · simp


/-! ## The decimal rendering -/

theorem toDigitsCore_append (fuel n : Nat) (ds : List Char) :
    Nat.toDigitsCore 10 fuel n ds = Nat.toDigitsCore 10 fuel n [] ++ ds := by
  induction fuel generalizing n ds with
  | zero => simp [Nat.toDigitsCore]
  | succ fuel ih =>
    simp only [Nat.toDigitsCore]
    split
    · simp
    · rw [ih (n / 10) (Nat.digitChar (n % 10) :: ds), ih (n / 10) [Nat.digitChar (n % 10)]]
      simp

theorem digitsValue_snoc (l : List Char) (c : Char) :
    digitsValue (l ++ [c]) = digitsValue l * 10 + (c.toNat - 48) := by
  simp [digitsValue, List.foldl_append]

theorem digitOf_toNat (k : Nat) (h : k < 10) : (digitOf k).toNat - 48 = k := by
  interval_cases k <;> rfl

theorem digitOf_isDigit (k : Nat) : (digitOf k).isDigit = true := by
  have h : k % 10 < 10 := Nat.mod_lt _ (by decide)
  unfold digitOf
  generalize k % 10 = r at h
  interval_cases r <;> rfl

theorem toDigitsCore_value (fuel n : Nat) (h : n < fuel) :
    digitsValue (Nat.toDigitsCore 10 fuel n []) = n := by
  induction fuel generalizing n with
  | zero => omega
  | succ fuel ih =>
    by_cases hn : n < 10
    · rw [toDigitsCore_lt _ _ _ hn]
      simp [digitsValue, digitOf_toNat n hn]
    · rw [toDigitsCore_ge _ _ _ (by omega), toDigitsCore_append, digitsValue_snoc,
        ih (n / 10) (by omega)]
      have : (digitOf n).toNat - 48 = n % 10 := by
        have h2 := digitOf_toNat (n % 10) (Nat.mod_lt _ (by decide))
        simpa [digitOf] using h2
      omega

theorem toDigitsCore_digits (fuel n : Nat) (h : n < fuel) :
    ∀ c ∈ Nat.toDigitsCore 10 fuel n [], c.isDigit = true := by
  induction fuel generalizing n with
  | zero => omega
  | succ fuel ih =>
    by_cases hn : n < 10
    · rw [toDigitsCore_lt _ _ _ hn]
      intro c hc
      simp only [List.mem_singleton] at hc
      subst hc
      exact digitOf_isDigit n
    · rw [toDigitsCore_ge _ _ _ (by omega), toDigitsCore_append]
      intro c hc
      rcases List.mem_append.mp hc with h1 | h1
      · exact ih (n / 10) (by omega) c h1
      · simp only [List.mem_singleton] at h1
        subst h1
        exact digitOf_isDigit n

theorem toDigitsCore_ne_nil (fuel n : Nat) (h : n < fuel) :
    Nat.toDigitsCore 10 fuel n [] ≠ [] := by
  obtain ⟨f, rfl⟩ : ∃ f, fuel = f + 1 := ⟨fuel - 1, by omega⟩
  by_cases hn : n < 10
  · rw [toDigitsCore_lt _ _ _ hn]; simp
  · rw [toDigitsCore_ge _ _ _ (by omega), toDigitsCore_append]; simp

theorem Atoi_digits (ds : List Char) (hne : ds ≠ []) (hd : ∀ c ∈ ds, c.isDigit = true)
    (hfit : digitsValue ds < 2 ^ 63) :
    Atoi (String.mk ds) = some (digitsValue ds : Int) := by
  cases ds with
  | nil => exact absurd rfl hne
  | cons c rest =>
    have hc : c.isDigit = true := hd c (List.mem_cons_self _ _)
    have hminus : c ≠ '-' := by rintro rfl; exact absurd hc (by decide)
    have hplus : c ≠ '+' := by rintro rfl; exact absurd hc (by decide)
    have hall : (c :: rest).all Char.isDigit = true := by
      rw [List.all_eq_true]; exact hd
    have hsig : (match (String.mk (c :: rest)).data with
        | '-' :: r => (true, r)
        | '+' :: r => (false, r)
        | r => (false, r)) = (false, c :: rest) := by
      simp only
      split
      · rename_i h; injection h with h1 _; exact absurd h1 hminus
      · rename_i h; injection h with h1 _; exact absurd h1 hplus
      · rfl
    have hfit2 : ¬ (2 ^ (intSize - 1) ≤ digitsValue (c :: rest)) := by
      simp only [intSize]; omega
    simp only [Atoi, hsig, List.isEmpty_cons, Bool.false_eq_true, if_false, hall,
      Bool.not_true, Bool.not_false, Bool.true_and, Bool.false_and, decide_eq_true_eq, hfit2]

theorem Atoi_neg_digits (ds : List Char) (hne : ds ≠ []) (hd : ∀ c ∈ ds, c.isDigit = true)
    (hfit : digitsValue ds ≤ 2 ^ 63) :
    Atoi ("-" ++ String.mk ds) = some (-(digitsValue ds : Int)) := by
  have hdata : ("-" ++ String.mk ds).data = '-' :: ds := rfl
  have hall : ds.all Char.isDigit = true := by
    rw [List.all_eq_true]; exact hd
  have hemp : ds.isEmpty = false := by
    cases ds with
    | nil => exact absurd rfl hne
    | cons c rest => rfl
  have hfit2 : ¬ (2 ^ (intSize - 1) < digitsValue ds) := by
    simp only [intSize]; omega
  simp only [Atoi, hdata, hemp, Bool.false_eq_true, if_false, hall,
    Bool.not_true, Bool.not_false, Bool.true_and, Bool.false_and, decide_eq_true_eq, hfit2,
    if_true]

/-- The decimal rendering `%d` reads back, through `Atoi`, as the integer it
was made from, for every integer of the `int64` range. -/
theorem Atoi_fmtD (n : Int) (hlo : -(2 ^ 63) ≤ n) (hhi : n < 2 ^ 63) :
    Atoi (fmtD n) = some n := by
  have hrepr : ∀ m : Nat, Nat.repr m = String.mk (Nat.toDigitsCore 10 (m + 1) m []) :=
    fun _ => rfl
  unfold fmtD
  by_cases hneg : n < 0
  · rw [if_pos hneg, hrepr,
      Atoi_neg_digits _ (toDigitsCore_ne_nil _ _ (by omega))
        (toDigitsCore_digits _ _ (by omega))
        (by rw [toDigitsCore_value _ _ (by omega)]; omega),
      toDigitsCore_value _ _ (by omega)]
    congr 1
    omega
  · rw [if_neg hneg, hrepr,
      Atoi_digits _ (toDigitsCore_ne_nil _ _ (by omega))
        (toDigitsCore_digits _ _ (by omega))
        (by rw [toDigitsCore_value _ _ (by omega)]; omega),
      toDigitsCore_value _ _ (by omega)]
    congr 1
    omega

/-! ## The day start and the request path -/

theorem isLeap_iff (year : Int) : isLeap year = true ↔ gregorianLeap year := by
  simp [isLeap, gregorianLeap]

theorem daysBefore_eq (year month : Int) (h1 : 1 ≤ month) (h12 : month ≤ 12) :
    (daysBefore.getD (month - 1).toNat 0 +
        if (isLeap year && decide (3 ≤ month)) = true then 1 else 0) =
      ((List.range (month.toNat - 1)).map fun i => daysInMonth year (i + 1)).sum := by
  by_cases hl : gregorianLeap year
  · have hb : isLeap year = true := (isLeap_iff year).mpr hl
    interval_cases month <;> simp [daysBefore, daysInMonth, hl, hb, List.range_succ]
  · have hb : isLeap year = false := by
      cases h : isLeap year with
      | false => rfl
      | true => exact absurd ((isLeap_iff year).mp h) hl
    interval_cases month <;> simp [daysBefore, daysInMonth, hl, hb, List.range_succ]

theorem daysBefore_bounds (month : Int) (h1 : 1 ≤ month) (h12 : month ≤ 12) :
    0 ≤ daysBefore.getD (month - 1).toNat 0 ∧ daysBefore.getD (month - 1).toNat 0 ≤ 334 := by
  interval_cases month <;> simp [daysBefore]

theorem wrapUint64_eq (x : Int) (h0 : 0 ≤ x) (h1 : x < 18446744073709551616) :
    wrapUint64 x = x := by
  unfold wrapUint64
  exact Int.emod_eq_of_lt h0 (by norm_num; exact h1)

theorem daysSinceEpoch_eq (year : Int) (hlo : absoluteZeroYear ≤ year)
    (hhi : year ≤ 292277026854) :
    daysSinceEpoch year =
      365 * (year - 1970) + (leapYearsBefore year - leapYearsBefore 1970) +
        106751991073094 := by
  simp only [absoluteZeroYear] at hlo
  have e0 : wrapUint64 (year - absoluteZeroYear) = year + 292277022399 := by
    rw [wrapUint64_eq] <;> simp only [absoluteZeroYear] <;> omega
  simp only [daysSinceEpoch, e0, daysPer400Years, daysPer100Years, daysPer4Years]
  have e1 : wrapUint64 (year + 292277022399 - 400 * ((year + 292277022399) / 400)) =
      (year + 292277022399) % 400 := by
    rw [wrapUint64_eq] <;> omega
  have e2 : wrapUint64 ((365 * 400 + 97) * ((year + 292277022399) / 400)) =
      146097 * ((year + 292277022399) / 400) := by
    rw [wrapUint64_eq] <;> omega
  simp only [e1, e2]
  have e3 : wrapUint64 ((year + 292277022399) % 400 -
      100 * ((year + 292277022399) % 400 / 100)) = (year + 292277022399) % 400 % 100 := by
    rw [wrapUint64_eq] <;> omega
  have e4 : wrapUint64 (146097 * ((year + 292277022399) / 400) +
      (365 * 100 + 24) * ((year + 292277022399) % 400 / 100)) =
      146097 * ((year + 292277022399) / 400) +
        36524 * ((year + 292277022399) % 400 / 100) := by
    rw [wrapUint64_eq] <;> omega
  simp only [e3, e4]
  have e5 : wrapUint64 ((year + 292277022399) % 400 % 100 -
      4 * ((year + 292277022399) % 400 % 100 / 4)) =
      (year + 292277022399) % 400 % 100 % 4 := by
    rw [wrapUint64_eq] <;> omega
  have e6 : wrapUint64 (146097 * ((year + 292277022399) / 400) +
      36524 * ((year + 292277022399) % 400 / 100) +
      (365 * 4 + 1) * ((year + 292277022399) % 400 % 100 / 4)) =
      146097 * ((year + 292277022399) / 400) +
        36524 * ((year + 292277022399) % 400 / 100) +
        1461 * ((year + 292277022399) % 400 % 100 / 4) := by
    rw [wrapUint64_eq] <;> omega
  simp only [e5, e6]
  rw [wrapUint64_eq _ (by omega) (by omega)]
  simp only [leapYearsBefore]
  omega


theorem dateCivilSeconds_midnight (year month day : Int)
    (hyear : absoluteZeroYear ≤ year) (h1 : 1 ≤ month) (h12 : month ≤ 12)
    (hd1 : 1 ≤ day) (hd31 : day ≤ 31)
    (hfit : daysFrom1970 year month day * 86400 - 28800 ≤ 2 ^ 63 - 1) :
    dateCivilSeconds year month day 0 0 0 = daysFrom1970 year month day * 86400 := by
  have hn1 : norm year (month - 1) 12 = (year, month - 1) := by
    simp [norm, show ¬ (month - 1 < 0) by omega, show ¬ (12 ≤ month - 1) by omega]
  have hn0 : norm 0 0 1000000000 = (0, 0) := by decide
  have hn2 : norm 0 0 60 = (0, 0) := by decide
  have hn3 : norm day 0 24 = (day, 0) := by simp [norm]
  have hmonth := daysBefore_eq year month h1 h12
  have hb := daysBefore_bounds month h1 h12
  simp only [daysFrom1970, Int.reducePow] at hfit
  rw [← hmonth] at hfit
  have hadj : (0 : Int) ≤ (if (isLeap year && decide (3 ≤ month)) = true then 1 else 0) ∧
      (if (isLeap year && decide (3 ≤ month)) = true then (1 : Int) else 0) ≤ 1 := by
    split <;> omega
  have hymax : year ≤ 292277026854 := by
    simp only [leapYearsBefore] at hfit
    omega
  have hdse := daysSinceEpoch_eq year hyear hymax
  simp only [absoluteZeroYear] at hyear
  simp only [dateCivilSeconds, hn0, hn1, hn2, hn3, sub_add_cancel]
  simp only [daysFrom1970]
  rw [← hmonth, hdse]
  simp only [leapYearsBefore] at hfit ⊢
  have w1 : wrapUint64 (365 * (year - 1970) +
      ((year - 1) / 4 - (year - 1) / 100 + (year - 1) / 400 -
        ((1970 - 1) / 4 - (1970 - 1) / 100 + (1970 - 1) / 400)) + 106751991073094 +
      daysBefore.getD (month - 1).toNat 0) =
      365 * (year - 1970) +
      ((year - 1) / 4 - (year - 1) / 100 + (year - 1) / 400 -
        ((1970 - 1) / 4 - (1970 - 1) / 100 + (1970 - 1) / 400)) + 106751991073094 +
      daysBefore.getD (month - 1).toNat 0 :=
    wrapUint64_eq _ (by omega) (by omega)
  rw [w1]
  by_cases hc : (isLeap year && decide (3 ≤ month)) = true
  · simp only [hc, if_true] at hfit ⊢
    simp only [secondsPerDay, absoluteToInternal, internalToUnix, unixToInternal,
      absoluteZeroYear, wrapUint64, wrapInt64, Int.reducePow]
    omega
  · simp only [hc, Bool.false_eq_true, if_false] at hfit ⊢
    simp only [secondsPerDay, absoluteToInternal, internalToUnix, unixToInternal,
      absoluteZeroYear, wrapUint64, wrapInt64, Int.reducePow]
    omega

theorem daysFrom1970_lower (year month day : Int) (hyear : absoluteZeroYear ≤ year)
    (h1 : 1 ≤ month) (h12 : month ≤ 12) (hd1 : 1 ≤ day) :
    -(2 ^ 63) ≤ daysFrom1970 year month day * 86400 - 28800 := by
  have hmonth := daysBefore_eq year month h1 h12
  have hb := daysBefore_bounds month h1 h12
  have hadj : (0 : Int) ≤ (if (isLeap year && decide (3 ≤ month)) = true then 1 else 0) := by
    split <;> omega
  simp only [absoluteZeroYear] at hyear
  simp only [daysFrom1970, leapYearsBefore, Int.reducePow]
  rw [← hmonth]
  omega

theorem dateUnix_midnight (year month day : Int) (loc : Location)
    (hyear : absoluteZeroYear ≤ year) (h1 : 1 ≤ month) (h12 : month ≤ 12)
    (hd1 : 1 ≤ day) (hd31 : day ≤ 31)
    (hcivil : (loc.lookup (daysFrom1970 year month day * 86400)).offset = 28800)
    (hstart : (loc.lookup (daysFrom1970 year month day * 86400 - 28800)).offset = 28800)
    (hfit : daysFrom1970 year month day * 86400 - 28800 ≤ 2 ^ 63 - 1) :
    dateUnix year month day 0 0 0 loc =
      daysFrom1970 year month day * 86400 - 28800 := by
  have hlow := daysFrom1970_lower year month day hyear h1 h12 hd1
  have hwrap : wrapInt64 (daysFrom1970 year month day * 86400 - 28800) =
      daysFrom1970 year month day * 86400 - 28800 := by
    simp only [wrapInt64, Int.reducePow] at hlow hfit ⊢
    omega
  simp only [dateUnix, dateCivilSeconds_midnight year month day hyear h1 h12 hd1 hd31 hfit,
    hcivil, hwrap, hstart, show ((28800 : Int) ≠ 0) = True from eq_true (by decide), if_true,
    ite_self]

/-- C7 (amended): for every `providerChannelID` and every target date whose
day start fits `int64` (the year is not below Go's absolute zero year, month and
day are in range, and the day start is at most `2 ^ 63 - 1`), with the loaded
zone at UTC+8 at the day start and eight hours after it (as the fixed UTC+8
zone is at every instant), the request path built by `FetchEPG` and handed to
the transport is `/program/getAuth/vod/originStream/program/`,
the provider channel id, `/` and the decimal day start, where the day start is
the number of days from 1970-01-01 to the calendar day (year, month, day) of
the target date times 86400 minus 28800, rendered so that it reads back as
that number; for the target date 2024-03-01 the path ends in `/1709222400`. -/
theorem FetchEPG_request_path (env : Env) (providerChannelID channelID : String)
    (date : Date) (now : Int) (zone : Location)
    (hzone : env.LoadLocation env.UTC8Location = .ok zone)
    (hcivil : (zone.lookup (daysFrom1970 date.Year date.Month date.Day * 86400)).offset =
      28800)
    (hstart : (zone.lookup
      (daysFrom1970 date.Year date.Month date.Day * 86400 - 28800)).offset = 28800)
    (hyear : -292277022399 ≤ date.Year)
    (hmonth : 1 ≤ date.Month ∧ date.Month ≤ 12)
    (hday : 1 ≤ date.Day ∧ date.Day ≤ 31)
    (hfit : daysFrom1970 date.Year date.Month date.Day * 86400 - 28800 ≤ 2 ^ 63 - 1) :
    requestPath providerChannelID (starOfTheDay date zone) =
        "/program/getAuth/vod/originStream/program/" ++ providerChannelID ++ "/" ++
          fmtD (daysFrom1970 date.Year date.Month date.Day * 86400 - 28800) ∧
      FetchEPG (env.withTransport echoPath) providerChannelID channelID date now =
        (none, some (.other
          ("/program/getAuth/vod/originStream/program/" ++ providerChannelID ++ "/" ++
            fmtD (daysFrom1970 date.Year date.Month date.Day * 86400 - 28800)))) ∧
      Atoi (fmtD (daysFrom1970 date.Year date.Month date.Day * 86400 - 28800)) =
        some (daysFrom1970 date.Year date.Month date.Day * 86400 - 28800) ∧
      (date = ⟨2024, 3, 1⟩ →
        requestPath providerChannelID (starOfTheDay date zone) =
          "/program/getAuth/vod/originStream/program/" ++ providerChannelID ++
            "/1709222400") := by
  have hday0 : starOfTheDay date zone =
      daysFrom1970 date.Year date.Month date.Day * 86400 - 28800 := by
    rw [starOfTheDay]
    exact dateUnix_midnight _ _ _ _ hyear hmonth.1 hmonth.2 hday.1 hday.2 hcivil hstart hfit
  have hpath : requestPath providerChannelID (starOfTheDay date zone) =
      "/program/getAuth/vod/originStream/program/" ++ providerChannelID ++ "/" ++
        fmtD (daysFrom1970 date.Year date.Month date.Day * 86400 - 28800) := by
    rw [hday0, requestPath]
  refine ⟨hpath, ?_, ?_, ?_⟩
  · have hz : (env.withTransport echoPath).LoadLocation
        (env.withTransport echoPath).UTC8Location = .ok zone := hzone
    have hg : (env.withTransport echoPath).GetWithHeaders = echoPath := rfl
    simp only [FetchEPG, hz, hg, echoPath, hpath]
  · exact Atoi_fmtD _
      (daysFrom1970_lower _ _ _ hyear hmonth.1 hmonth.2 hday.1) (by omega)
  · intro hdate
    rw [hpath, hdate]
    have hnum : fmtD (daysFrom1970 2024 3 1 * 86400 - 28800) = "1709222400" := by decide
    simp only [hnum, String.append_assoc]
    rfl

set_option maxRecDepth 100000 in
/-- Witness of C7 (amended): provider channel `145` on 2024-03-01 with the
table of `Asia/Shanghai` loaded, the path as the transport receives it. -/
theorem FetchEPG_request_path_witness :
    FetchEPG (tzEnv.withTransport echoPath) "145" "henan" ⟨2024, 3, 1⟩ 1700000000 =
      (none, some (.other "/program/getAuth/vod/originStream/program/145/1709222400")) :=
  Eq.trans
    (by decide :
      FetchEPG (tzEnv.withTransport echoPath) "145" "henan" ⟨2024, 3, 1⟩ 1700000000 =
        (none, some (.other (requestPath "145" (starOfTheDay ⟨2024, 3, 1⟩ asiaShanghai)))))
    (congrArg (fun path => ((none : Option (List Program)), some (GoError.other path)))
      ((FetchEPG_request_path tzEnv "145" "henan" ⟨2024, 3, 1⟩ 1700000000 asiaShanghai rfl
        (by decide) (by decide) (by decide) (by decide) (by decide) (by decide)).2.2.2 rfl))

set_option maxRecDepth 100000 in
/-- Counterexample to C7 as stated: the target date 292277026597-01-01, in the
fixed zone UTC+8. The day start `days * 86400 - 28800` is 9223372036857110400,
above `2 ^ 63 - 1`; `time.Date(...).Unix()` is an `int64` and wraps, so the
path handed to the transport ends in the negative number -9223372036852441216,
not in the decimal day start (with the table of `Asia/Shanghai` the wrapped
instant falls under local mean time and the number is -9223372036852441559). -/
theorem FetchEPG_request_path_overflow :
    (sampleEnv ⟨0, "ok", true, []⟩ true (.ok [])).LoadLocation "Asia/Shanghai" =
        .ok shanghai ∧
      (∀ sec, (shanghai.lookup sec).offset = 28800) ∧
      FetchEPG ((sampleEnv ⟨0, "ok", true, []⟩ true (.ok [])).withTransport echoPath)
          "145" "henan" ⟨292277026597, 1, 1⟩ 1700000000 =
        (none, some (.other
          "/program/getAuth/vod/originStream/program/145/-9223372036852441216")) ∧
      "/program/getAuth/vod/originStream/program/" ++ "145" ++ "/" ++
          fmtD (daysFrom1970 292277026597 1 1 * 86400 - 28800) =
        "/program/getAuth/vod/originStream/program/145/9223372036857110400" ∧
      ¬ (daysFrom1970 292277026597 1 1 * 86400 - 28800 ≤ 2 ^ 63 - 1) ∧
      requestPath "145" (starOfTheDay ⟨292277026597, 1, 1⟩ asiaShanghai) =
        "/program/getAuth/vod/originStream/program/145/-9223372036852441559" := by
  refine ⟨rfl, fun _ => rfl, by decide, by decide, by decide, by decide⟩

set_option maxRecDepth 100000 in
/-- The day start in the zone `Asia/Shanghai`: on 2024-03-01 the zone is at
UTC+8 and the day start is 1709222400; on 1988-07-01 daylight saving time is
in force and the day start is one hour earlier than `days * 86400 - 28800`; on
1900-01-01 local mean time is in force. -/
theorem starOfTheDay_asiaShanghai :
    starOfTheDay ⟨2024, 3, 1⟩ asiaShanghai = 1709222400 ∧
      starOfTheDay ⟨1988, 7, 1⟩ asiaShanghai = daysFrom1970 1988 7 1 * 86400 - 32400 ∧
      starOfTheDay ⟨1900, 1, 1⟩ asiaShanghai = daysFrom1970 1900 1 1 * 86400 - 29143 := by
  decide

/-! ## The authentication headers -/

theorem bytesOf_append (a b : String) : bytesOf (a ++ b) = bytesOf a ++ bytesOf b := by
  simp [bytesOf, String.data_append]

theorem Sum256_length (data : Bytes) : (Sum256 data).length = 32 := by
  simp [Sum256, be32]

theorem fmtX_length (b : Bytes) : (fmtX b).length = 2 * b.length := by
  simp only [fmtX, String.length]
  induction b with
  | nil => rfl
  | cons x rest ih => simp [List.flatMap_cons, ih]; omega

theorem hexDigit_mem (n : Nat) (h : n < 16) : hexDigit n ∈ "0123456789abcdef".data := by
  interval_cases n <;> decide

theorem fmtX_hex (b : Bytes) : ∀ c ∈ (fmtX b).data, c ∈ "0123456789abcdef".data := by
  intro c hc
  simp only [fmtX, List.mem_flatMap] at hc
  obtain ⟨x, _, hx⟩ := hc
  simp only [List.mem_cons, List.mem_singleton, List.not_mem_nil, or_false] at hx
  rcases hx with h | h
  · subst h; exact hexDigit_mem _ (Nat.mod_lt _ (by decide))
  · subst h; exact hexDigit_mem _ (Nat.mod_lt _ (by decide))

set_option maxRecDepth 100000 in
/-- C8: the headers built by `FetchEPG` once the zone has loaded, and handed to
the transport, are a function of the secret and the timestamp `ts` read at call time: `TimeStamp` is
the decimal rendering of `ts` (it reads back as `ts`), `Sign` is the lowercase
hexadecimal rendering, 64 characters out of `0-9a-f`, of SHA-256 of the bytes
of the secret followed by the same decimal rendering of `ts`; the two values
are the same in every environment, and the header set has exactly the keys
`User-Agent`, `TimeStamp` and `Sign`. The hash is SHA-256 on the test vectors
of FIPS 180, and for the timestamps 1700000000 and 1700000001 the signatures
are the two digests of `6ca114a836ac7d73` followed by the timestamp. -/
theorem FetchEPG_auth_headers (env : Env) (providerChannelID channelID : String)
    (date : Date) (ts : Int) (zone : Location)
    (hzone : env.LoadLocation env.UTC8Location = .ok zone) :
    headers env ts =
        [("User-Agent", env.DefaultUserAgent), ("TimeStamp", fmtD ts),
         ("Sign", fmtX (Sum256 (bytesOf "6ca114a836ac7d73" ++ bytesOf (fmtD ts))))] ∧
      (∀ render : List (String × String) → String,
        FetchEPG (env.withTransport fun _ hdrs => .error (.other (render hdrs)))
            providerChannelID channelID date ts =
          (none, some (.other (render
            [("User-Agent", env.DefaultUserAgent), ("TimeStamp", fmtD ts),
             ("Sign", fmtX (Sum256 (bytesOf "6ca114a836ac7d73" ++ bytesOf (fmtD ts))))])))) ∧
      (headers env ts).map Prod.fst = ["User-Agent", "TimeStamp", "Sign"] ∧
      (fmtX (Sum256 (bytesOf "6ca114a836ac7d73" ++ bytesOf (fmtD ts)))).length = 64 ∧
      (∀ c ∈ (fmtX (Sum256 (bytesOf "6ca114a836ac7d73" ++ bytesOf (fmtD ts)))).data,
        c ∈ "0123456789abcdef".data) ∧
      (-(2 ^ 63) ≤ ts → ts < 2 ^ 63 → Atoi (fmtD ts) = some ts) ∧
      (∀ other : Env,
        (headers other ts).lookup "Sign" = (headers env ts).lookup "Sign" ∧
        (headers other ts).lookup "TimeStamp" = (headers env ts).lookup "TimeStamp") ∧
      (fmtX (Sum256 (bytesOf "")) =
          "e3b0c44298fc1c149afbf4c8996fb92427ae41e4649b934ca495991b7852b855" ∧
        fmtX (Sum256 (bytesOf "abc")) =
          "ba7816bf8f01cfea414140de5dae2223b00361a396177a9cb410ff61f20015ad" ∧
        fmtX (Sum256 (bytesOf "abcdbcdecdefdefgefghfghighijhijkijkljklmklmnlmnomnopnopq")) =
          "248d6a61d20638b8e5c026930c3e6039a33ce45964ff2167f6ecedd419db06c1") ∧
      (ts = 1700000000 →
        headers env ts =
          [("User-Agent", env.DefaultUserAgent), ("TimeStamp", "1700000000"),
           ("Sign", "52d1f5ae650eb5594143c2ee36971843c054658dc59ce525bbf063b826ebeecf")]) ∧
      (ts = 1700000001 →
        headers env ts =
          [("User-Agent", env.DefaultUserAgent), ("TimeStamp", "1700000001"),
           ("Sign", "bcef9ad43906270f943edf6a1c71aff33fd0be3abb2757f85ca18ab53a8990f9")]) := by
  have hh : headers env ts =
      [("User-Agent", env.DefaultUserAgent), ("TimeStamp", fmtD ts),
       ("Sign", fmtX (Sum256 (bytesOf "6ca114a836ac7d73" ++ bytesOf (fmtD ts))))] := by
    simp only [headers, HeaderUserAgent, sign, salt, bytesOf_append]
  refine ⟨hh, ?_, ?_, ?_, ?_, ?_, ?_, by decide, ?_, ?_⟩
  · intro render
    have hz : ∀ t, (env.withTransport t).LoadLocation
        (env.withTransport t).UTC8Location = .ok zone := fun _ => hzone
    have hd : ∀ t, headers (env.withTransport t) ts = headers env ts := fun _ => rfl
    have hg : ∀ t, (env.withTransport t).GetWithHeaders = t := fun _ => rfl
    simp only [FetchEPG, hz, hd, hg, hh]
  · rw [hh]; rfl
  · rw [fmtX_length, Sum256_length]
  · exact fmtX_hex _
  · exact Atoi_fmtD ts
  · intro other
    constructor <;> rfl
  · intro hts
    have hsign : fmtX (Sum256 (bytesOf "6ca114a836ac7d73" ++ bytesOf (fmtD 1700000000))) =
        "52d1f5ae650eb5594143c2ee36971843c054658dc59ce525bbf063b826ebeecf" := by decide
    have hdec : fmtD 1700000000 = "1700000000" := by decide
    rw [hh, hts, hsign, hdec]
  · intro hts
    have hsign : fmtX (Sum256 (bytesOf "6ca114a836ac7d73" ++ bytesOf (fmtD 1700000001))) =
        "bcef9ad43906270f943edf6a1c71aff33fd0be3abb2757f85ca18ab53a8990f9" := by decide
    have hdec : fmtD 1700000001 = "1700000001" := by decide
    rw [hh, hts, hsign, hdec]

set_option maxRecDepth 100000 in
/-- Witness of C8: at the timestamp 1700000000 the transport receives the
three headers, the signature being the SHA-256 digest of
`6ca114a836ac7d731700000000`. -/
theorem FetchEPG_auth_headers_witness :
    FetchEPG
        ((sampleEnv ⟨0, "ok", true, []⟩ true (.ok [])).withTransport
          fun _ hdrs => .error (.other (renderHeaders hdrs)))
        "145" "henan" ⟨2024, 3, 1⟩ 1700000000 =
      (none, some (.other ("User-Agent=Mozilla/5.0;TimeStamp=1700000000;Sign=" ++
        "52d1f5ae650eb5594143c2ee36971843c054658dc59ce525bbf063b826ebeecf"))) :=
  Eq.trans
    (Eq.trans
      (by decide :
        FetchEPG
            ((sampleEnv ⟨0, "ok", true, []⟩ true (.ok [])).withTransport
              fun _ hdrs => .error (.other (renderHeaders hdrs)))
            "145" "henan" ⟨2024, 3, 1⟩ 1700000000 =
          (none, some (.other (renderHeaders
            (headers (sampleEnv ⟨0, "ok", true, []⟩ true (.ok [])) 1700000000)))))
      (congrArg
        (fun hdrs =>
          ((none : Option (List Program)), some (GoError.other (renderHeaders hdrs))))
        (FetchEPG_auth_headers (sampleEnv ⟨0, "ok", true, []⟩ true (.ok [])) "145" "henan"
          ⟨2024, 3, 1⟩ 1700000000 shanghai rfl).1))
    (by decide)

end Daxiang
